import Mathlib

/-!
Verification of the rewards-shop service (business_layer.py / data_layer.py).

The SQLite database is modelled as an explicit `ShopState`: the three tables
as lists of records and the three AUTOINCREMENT counters.  Every data-layer
function is a pure state transformer; the SQLite integrity rules that the
source switches on (`PRAGMA foreign_keys = ON`, `email TEXT NOT NULL UNIQUE`)
are part of the model, since the schema in `data_layer.init_db` declares them.
Business-layer operations return a pair: the `Except` outcome (a Python
`ValueError` / `sqlite3.IntegrityError` becomes an error value, tagged with
the spec's error taxonomy and carrying the exact message the source builds)
together with the database state after the call.  In every source operation
each `raise` happens before any write, so at a raise site the state returned
is the entry state.
-/

namespace RewardsShop

structure Customer where
  id : Int
  name : String
  email : String
  points : Int
deriving Repr, DecidableEq

structure Reward where
  id : Int
  name : String
  cost : Int
deriving Repr, DecidableEq

/-- A row of the `orders` table:
`id, customer_id, reward_id, quantity, points_spent, order_time, status`. -/
structure Order where
  id : Int
  customer_id : Int
  reward_id : Int
  quantity : Int
  points_spent : Int
  order_time : String
  status : String
deriving Repr, DecidableEq

/-- The whole database: the three tables plus the AUTOINCREMENT counters
(SQLite hands out ids starting at 1, never reusing one). -/
structure ShopState where
  customers : List Customer
  rewards : List Reward
  orders : List Order
  next_customer_id : Int
  next_reward_id : Int
  next_order_id : Int
deriving Repr, DecidableEq

/-- Errors surfaced to the caller.  The source raises `ValueError` with a
message at each validation site and lets `sqlite3.IntegrityError` escape from
the data layer; constructors follow the spec's taxonomy (§7), one per raise
site, and carry the message the source formats. -/
inductive ShopError where
  | invalidInput (msg : String)
  | notFound (msg : String)
  | insufficientFunds (msg : String)
  | invalidState (msg : String)
  | integrityError (msg : String)
deriving Repr, DecidableEq

namespace data_layer

/-- `SELECT id, name, email, points FROM customers WHERE id = ?` + `fetchone`. -/
def get_customer_by_id (s : ShopState) (customer_id : Int) : Option Customer :=
  s.customers.find? (fun c => c.id == customer_id)

/-- `SELECT id, name, cost FROM rewards WHERE id = ?` + `fetchone`. -/
def get_reward_by_id (s : ShopState) (reward_id : Int) : Option Reward :=
  s.rewards.find? (fun r => r.id == reward_id)

/-- `UPDATE customers SET points = ? WHERE id = ?`. -/
def update_customer_points (s : ShopState) (customer_id new_points : Int) : ShopState :=
  { s with customers :=
      s.customers.map (fun c => if c.id == customer_id then { c with points := new_points } else c) }

/-- `INSERT INTO orders (customer_id, reward_id, quantity, points_spent, order_time, status)`;
the fresh row gets the next AUTOINCREMENT id, `order_time` is the wall-clock
string the call site observes, and `status` defaults to `"pending"` at the
Python call sites that omit it. -/
def insert_order (s : ShopState) (customer_id reward_id quantity points_spent : Int)
    (order_time status : String) : ShopState :=
  { s with
      orders := s.orders ++
        [{ id := s.next_order_id, customer_id := customer_id, reward_id := reward_id,
           quantity := quantity, points_spent := points_spent,
           order_time := order_time, status := status }],
      next_order_id := s.next_order_id + 1 }

/-- `SELECT ... FROM orders WHERE id = ?` + `fetchone`. -/
def get_order_by_id (s : ShopState) (order_id : Int) : Option Order :=
  s.orders.find? (fun o => o.id == order_id)

/-- `UPDATE orders SET status = ? WHERE id = ?`. -/
def update_order_status (s : ShopState) (order_id : Int) (new_status : String) : ShopState :=
  { s with orders :=
      s.orders.map (fun o => if o.id == order_id then { o with status := new_status } else o) }

/-- `INSERT INTO customers (name, email, points) VALUES (?, ?, ?)`.
The schema declares `email TEXT NOT NULL UNIQUE`, so inserting a duplicate
email raises `sqlite3.IntegrityError`. -/
def insert_customer (s : ShopState) (name email : String) (points : Int) :
    Except ShopError Unit × ShopState :=
  if s.customers.any (fun c => c.email == email) then
    (.error (.integrityError "UNIQUE constraint failed: customers.email"), s)
  else
    (.ok (), { s with
      customers := s.customers ++
        [{ id := s.next_customer_id, name := name, email := email, points := points }],
      next_customer_id := s.next_customer_id + 1 })

/-- `DELETE FROM customers WHERE id = ?`.  With `PRAGMA foreign_keys = ON`
and `orders.customer_id REFERENCES customers(id)` (no ON DELETE action),
deleting a customer row that an order still references raises
`sqlite3.IntegrityError`; deleting a non-existent id deletes nothing and
succeeds. -/
def delete_customer (s : ShopState) (customer_id : Int) :
    Except ShopError Unit × ShopState :=
  if s.customers.any (fun c => c.id == customer_id) &&
     s.orders.any (fun o => o.customer_id == customer_id) then
    (.error (.integrityError "FOREIGN KEY constraint failed"), s)
  else
    (.ok (), { s with customers := s.customers.filter (fun c => c.id != customer_id) })

/-- `INSERT INTO rewards (name, cost) VALUES (?, ?)` (no unique constraint). -/
def insert_reward (s : ShopState) (name : String) (cost : Int) : ShopState :=
  { s with
      rewards := s.rewards ++ [{ id := s.next_reward_id, name := name, cost := cost }],
      next_reward_id := s.next_reward_id + 1 }

/-- `DELETE FROM rewards WHERE id = ?`, with the same foreign-key rule as
`delete_customer` via `orders.reward_id`. -/
def delete_reward (s : ShopState) (reward_id : Int) :
    Except ShopError Unit × ShopState :=
  if s.rewards.any (fun r => r.id == reward_id) &&
     s.orders.any (fun o => o.reward_id == reward_id) then
    (.error (.integrityError "FOREIGN KEY constraint failed"), s)
  else
    (.ok (), { s with rewards := s.rewards.filter (fun r => r.id != reward_id) })

end data_layer

namespace RewardShopService

/-- `RewardShopService.get_customer`: row fetched by id, mapped to `Customer`. -/
def get_customer (s : ShopState) (customer_id : Int) : Option Customer :=
  data_layer.get_customer_by_id s customer_id

/-- `RewardShopService.get_reward`: row fetched by id, mapped to `Reward`. -/
def get_reward (s : ShopState) (reward_id : Int) : Option Reward :=
  data_layer.get_reward_by_id s reward_id

/-- `RewardShopService.redeem_reward`: validate quantity, customer, reward
and balance, then deduct `total_cost` and insert a `"pending"` order.
`now` is the timestamp string `datetime.now().isoformat()` produced inside
`insert_order`. -/
def redeem_reward (s : ShopState) (now : String) (customer_id reward_id quantity : Int) :
    Except ShopError (Option Customer × Reward × Int) × ShopState :=
  if quantity < 1 then
    (.error (.invalidInput "Quantity must be at least 1."), s)
  else
    match get_customer s customer_id with
    | none => (.error (.notFound "Customer not found."), s)
    | some customer =>
      match get_reward s reward_id with
      | none => (.error (.notFound "Reward not found."), s)
      | some reward =>
        let total_cost := reward.cost * quantity
        if customer.points < total_cost then
          (.error (.insufficientFunds
            (customer.name ++ " does not have enough points. Has " ++
              toString customer.points ++ ", needs " ++ toString total_cost ++ ".")), s)
        else
          let new_points := customer.points - total_cost
          let s1 := data_layer.update_customer_points s customer_id new_points
          let s2 := data_layer.insert_order s1 customer_id reward_id quantity total_cost now "pending"
          (.ok (get_customer s2 customer_id, reward, total_cost), s2)

/-- `RewardShopService.add_customer`: strip, validate, insert. -/
def add_customer (s : ShopState) (name email : String) (points : Int) :
    Except ShopError Unit × ShopState :=
  let name := name.trim
  let email := email.trim
  if name.isEmpty then
    (.error (.invalidInput "Name is required."), s)
  else if email.isEmpty || !(email.contains '@') then
    (.error (.invalidInput "A valid email is required."), s)
  else if points < 0 then
    (.error (.invalidInput "Points cannot be negative."), s)
  else
    data_layer.insert_customer s name email points

/-- `RewardShopService.delete_customer`: delegates straight to the data layer. -/
def delete_customer (s : ShopState) (customer_id : Int) :
    Except ShopError Unit × ShopState :=
  data_layer.delete_customer s customer_id

/-- `RewardShopService.add_reward`: strip, validate, insert. -/
def add_reward (s : ShopState) (name : String) (cost : Int) :
    Except ShopError Unit × ShopState :=
  let name := name.trim
  if name.isEmpty then
    (.error (.invalidInput "Reward name is required."), s)
  else if cost ≤ 0 then
    (.error (.invalidInput "Reward cost must be greater than 0."), s)
  else
    (.ok (), data_layer.insert_reward s name cost)

/-- `RewardShopService.delete_reward`: delegates straight to the data layer. -/
def delete_reward (s : ShopState) (reward_id : Int) :
    Except ShopError Unit × ShopState :=
  data_layer.delete_reward s reward_id

/-- `RewardShopService.issue_points`: validate, add points, return the
re-fetched customer. -/
def issue_points (s : ShopState) (customer_id points : Int) :
    Except ShopError (Option Customer) × ShopState :=
  if points ≤ 0 then
    (.error (.invalidInput "Points to add must be greater than 0."), s)
  else
    match get_customer s customer_id with
    | none => (.error (.notFound "Customer not found."), s)
    | some customer =>
      let new_points := customer.points + points
      let s1 := data_layer.update_customer_points s customer_id new_points
      (.ok (get_customer s1 customer_id), s1)

/-- `RewardShopService.fulfill_order`: flip a pending order to `"fulfilled"`. -/
def fulfill_order (s : ShopState) (order_id : Int) :
    Except ShopError Unit × ShopState :=
  match data_layer.get_order_by_id s order_id with
  | none => (.error (.notFound "Order not found."), s)
  | some row =>
    if row.status ≠ "pending" then
      (.error (.invalidState ("Order is not pending (current status: " ++ row.status ++ ").")), s)
    else
      (.ok (), data_layer.update_order_status s order_id "fulfilled")

/-- `RewardShopService.cancel_order`: refund `points_spent`, flip the order to
`"cancelled"`, return the re-fetched customer.  The source unpacks the row and
checks the status before looking the customer up. -/
def cancel_order (s : ShopState) (order_id : Int) :
    Except ShopError (Option Customer) × ShopState :=
  match data_layer.get_order_by_id s order_id with
  | none => (.error (.notFound "Order not found."), s)
  | some row =>
    if row.status ≠ "pending" then
      (.error (.invalidState ("Order is not pending (current status: " ++ row.status ++ ").")), s)
    else
      match get_customer s row.customer_id with
      | none => (.error (.notFound "Customer not found for this order."), s)
      | some customer =>
        let new_points := customer.points + row.points_spent
        let s1 := data_layer.update_customer_points s row.customer_id new_points
        let s2 := data_layer.update_order_status s1 order_id "cancelled"
        (.ok (get_customer s2 row.customer_id), s2)

end RewardShopService

/-- One user-triggered service operation, with the inputs the GUI supplies
(the redemption timestamp is the oracle input `now`). -/
inductive Op where
  | redeemOp (now : String) (customer_id reward_id quantity : Int)
  | issueOp (customer_id points : Int)
  | fulfillOp (order_id : Int)
  | cancelOp (order_id : Int)
  | addCustomerOp (name email : String) (points : Int)
  | deleteCustomerOp (customer_id : Int)
  | addRewardOp (name : String) (cost : Int)
  | deleteRewardOp (reward_id : Int)

/-- The database state after running an operation (unchanged when the
operation raises, since every raise precedes every write in the source). -/
def applyOp (s : ShopState) : Op → ShopState
  | .redeemOp now cid rid q => (RewardShopService.redeem_reward s now cid rid q).2
  | .issueOp cid p => (RewardShopService.issue_points s cid p).2
  | .fulfillOp oid => (RewardShopService.fulfill_order s oid).2
  | .cancelOp oid => (RewardShopService.cancel_order s oid).2
  | .addCustomerOp n e p => (RewardShopService.add_customer s n e p).2
  | .deleteCustomerOp cid => (RewardShopService.delete_customer s cid).2
  | .addRewardOp n c => (RewardShopService.add_reward s n c).2
  | .deleteRewardOp rid => (RewardShopService.delete_reward s rid).2

/-- One service call relates the state before to the state after. -/
def Step (s s' : ShopState) : Prop := ∃ op : Op, applyOp s op = s'

/-- The database `init_db` seeds on first run: Alice/Bob/Chris and the four
rewards, no orders; AUTOINCREMENT counters continue from the seeds. -/
def initState : ShopState :=
  { customers :=
      [{ id := 1, name := "Alice", email := "alice@example.com", points := 100 },
       { id := 2, name := "Bob", email := "bob@example.com", points := 60 },
       { id := 3, name := "Chris", email := "chris@example.com", points := 250 }],
    rewards :=
      [{ id := 1, name := "Booster Pack", cost := 20 },
       { id := 2, name := "Playmat", cost := 50 },
       { id := 3, name := "Sleeves", cost := 15 },
       { id := 4, name := "Starter Deck", cost := 40 }],
    orders := [],
    next_customer_id := 4, next_reward_id := 5, next_order_id := 1 }

/-- States the application can actually be in: reachable from the seeded
database by service calls. -/
def Reachable (s : ShopState) : Prop := Relation.ReflTransGen Step initState s

/-- Bookkeeping invariant of the `orders` table: ids are pairwise distinct
and below the AUTOINCREMENT counter. -/
def OrderIdsOK (s : ShopState) : Prop :=
  s.orders.Pairwise (fun a b => a.id ≠ b.id) ∧ ∀ o ∈ s.orders, o.id < s.next_order_id

/-- A concrete database in which customer 1 has a pending order 1. -/
def fkState : ShopState :=
  { customers := [{ id := 1, name := "Dana", email := "dana@example.com", points := 0 }],
    rewards := [{ id := 1, name := "Pin", cost := 5 }],
    orders := [{ id := 1, customer_id := 1, reward_id := 1, quantity := 1,
                 points_spent := 5, order_time := "2024-01-01T00:00:00", status := "pending" }],
    next_customer_id := 2, next_reward_id := 2, next_order_id := 2 }

/-- A concrete database holding a fulfilled order whose customer (id 99) no
longer exists. -/
def staleOrderState : ShopState :=
  { customers := [], rewards := [],
    orders := [{ id := 1, customer_id := 99, reward_id := 1, quantity := 1,
                 points_spent := 10, order_time := "2024-01-01T00:00:00", status := "fulfilled" }],
    next_customer_id := 1, next_reward_id := 1, next_order_id := 2 }

/-! ### Helper lemmas about list search under row updates -/

lemma find?_map_pred {α : Type} (l : List α) (p : α → Bool) (f : α → α)
    (hp : ∀ x, p (f x) = p x) :
    (l.map f).find? p = (l.find? p).map f := by
  rw [List.find?_map]
  have : p ∘ f = p := funext hp
  rw [this]

lemma get_customer_update_points (s : ShopState) (cid np : Int) (C : Customer)
    (h : RewardShopService.get_customer s cid = some C) :
    RewardShopService.get_customer (data_layer.update_customer_points s cid np) cid
      = some { C with points := np } := by
  have h' : s.customers.find? (fun c => c.id == cid) = some C := h
  have hC := List.find?_some h'
  simp only [] at hC
  have hp : ∀ x : Customer,
      (fun c : Customer => c.id == cid)
        ((fun c : Customer => if c.id == cid then { c with points := np } else c) x)
      = (fun c : Customer => c.id == cid) x := by
    intro x; by_cases hx : (x.id == cid) <;> simp [hx]
  show (s.customers.map fun c => if c.id == cid then { c with points := np } else c).find?
      (fun c => c.id == cid) = some { C with points := np }
  rw [find?_map_pred _ _ _ hp]
  rw [h']
  simp only [beq_iff_eq] at hC
  simp [hC]

lemma get_order_update_status (s : ShopState) (oid : Int) (st : String) (O : Order)
    (h : data_layer.get_order_by_id s oid = some O) :
    data_layer.get_order_by_id (data_layer.update_order_status s oid st) oid
      = some { O with status := st } := by
  have h' : s.orders.find? (fun o => o.id == oid) = some O := h
  have hO := List.find?_some h'
  simp only [] at hO
  have hp : ∀ x : Order,
      (fun o : Order => o.id == oid)
        ((fun o : Order => if o.id == oid then { o with status := st } else o) x)
      = (fun o : Order => o.id == oid) x := by
    intro x; by_cases hx : (x.id == oid) <;> simp [hx]
  show (s.orders.map fun o => if o.id == oid then { o with status := st } else o).find?
      (fun o => o.id == oid) = some { O with status := st }
  rw [find?_map_pred _ _ _ hp]
  rw [h']
  simp only [beq_iff_eq] at hO
  simp [hO]

/-! ### Characterisations of the service operations -/

/-- The successful branch of `redeem_reward`, spelled out. -/
lemma redeem_reward_success (s : ShopState) (now : String) (cid rid q : Int)
    (C : Customer) (R : Reward)
    (hq : ¬ q < 1) (hC : RewardShopService.get_customer s cid = some C)
    (hR : RewardShopService.get_reward s rid = some R)
    (hpts : ¬ C.points < R.cost * q) :
    RewardShopService.redeem_reward s now cid rid q =
      (.ok (RewardShopService.get_customer
              (data_layer.insert_order (data_layer.update_customer_points s cid (C.points - R.cost * q))
                cid rid q (R.cost * q) now "pending") cid,
            R, R.cost * q),
       data_layer.insert_order (data_layer.update_customer_points s cid (C.points - R.cost * q))
         cid rid q (R.cost * q) now "pending") := by
  simp [RewardShopService.redeem_reward, hq, hC, hR, hpts]

/-- If `redeem_reward` returns `ok`, all four checks passed and the final
state is the two-write composition. -/
lemma redeem_reward_ok_inv (s : ShopState) (now : String) (cid rid q : Int)
    (r : Option Customer × Reward × Int)
    (h : (RewardShopService.redeem_reward s now cid rid q).1 = .ok r) :
    ∃ C R, ¬ q < 1 ∧ RewardShopService.get_customer s cid = some C ∧
      RewardShopService.get_reward s rid = some R ∧ ¬ C.points < R.cost * q ∧
      (RewardShopService.redeem_reward s now cid rid q).2 =
        data_layer.insert_order (data_layer.update_customer_points s cid (C.points - R.cost * q))
          cid rid q (R.cost * q) now "pending" := by
  by_cases hq : q < 1
  · simp [RewardShopService.redeem_reward, hq] at h
  · rcases hC : RewardShopService.get_customer s cid with _ | C
    · simp [RewardShopService.redeem_reward, hq, hC] at h
    · rcases hR : RewardShopService.get_reward s rid with _ | R
      · simp [RewardShopService.redeem_reward, hq, hC, hR] at h
      · by_cases hpts : C.points < R.cost * q
        · simp [RewardShopService.redeem_reward, hq, hC, hR, hpts] at h
        · exact ⟨C, R, hq, rfl, rfl, hpts, by
            rw [redeem_reward_success s now cid rid q C R hq hC hR hpts]⟩

/-- If `redeem_reward` raises, the database is as it was. -/
lemma redeem_reward_error_state (s : ShopState) (now : String) (cid rid q : Int)
    (e : ShopError) (h : (RewardShopService.redeem_reward s now cid rid q).1 = .error e) :
    (RewardShopService.redeem_reward s now cid rid q).2 = s := by
  by_cases hq : q < 1
  · simp [RewardShopService.redeem_reward, hq]
  · rcases hC : RewardShopService.get_customer s cid with _ | C
    · simp [RewardShopService.redeem_reward, hq, hC]
    · rcases hR : RewardShopService.get_reward s rid with _ | R
      · simp [RewardShopService.redeem_reward, hq, hC, hR]
      · by_cases hpts : C.points < R.cost * q
        · simp [RewardShopService.redeem_reward, hq, hC, hR, hpts]
        · exfalso
          rw [redeem_reward_success s now cid rid q C R hq hC hR hpts] at h
          simp at h

/-- The successful branch of `cancel_order`, spelled out. -/
lemma cancel_order_success (s : ShopState) (oid : Int) (O : Order) (C : Customer)
    (hO : data_layer.get_order_by_id s oid = some O) (hst : O.status = "pending")
    (hC : RewardShopService.get_customer s O.customer_id = some C) :
    RewardShopService.cancel_order s oid =
      (.ok (RewardShopService.get_customer
              (data_layer.update_order_status
                (data_layer.update_customer_points s O.customer_id (C.points + O.points_spent))
                oid "cancelled") O.customer_id),
       data_layer.update_order_status
         (data_layer.update_customer_points s O.customer_id (C.points + O.points_spent))
         oid "cancelled") := by
  simp [RewardShopService.cancel_order, hO, hst, hC]

/-- The successful branch of `fulfill_order`, spelled out. -/
lemma fulfill_order_success (s : ShopState) (oid : Int) (O : Order)
    (hO : data_layer.get_order_by_id s oid = some O) (hst : O.status = "pending") :
    RewardShopService.fulfill_order s oid =
      (.ok (), data_layer.update_order_status s oid "fulfilled") := by
  simp [RewardShopService.fulfill_order, hO, hst]

/-- The successful branch of `issue_points`, spelled out. -/
lemma issue_points_success (s : ShopState) (cid p : Int) (C : Customer)
    (hp : ¬ p ≤ 0) (hC : RewardShopService.get_customer s cid = some C) :
    RewardShopService.issue_points s cid p =
      (.ok (RewardShopService.get_customer
              (data_layer.update_customer_points s cid (C.points + p)) cid),
       data_layer.update_customer_points s cid (C.points + p)) := by
  simp [RewardShopService.issue_points, hp, hC]

/-! ### The claims -/

/-- C1: for every customer `C`, reward `R` and quantity `q ≥ 1`, redeeming
succeeds iff `C.points ≥ R.cost * q`; on success the new balance is the old
one minus `R.cost * q` and exactly one new order is appended, for that
customer and reward, with quantity `q`, `points_spent = R.cost * q` and
status `"pending"`. -/
theorem redeem_reward_correct (s : ShopState) (now : String) (C : Customer) (R : Reward) (q : Int)
    (hq : 1 ≤ q)
    (hC : RewardShopService.get_customer s C.id = some C)
    (hR : RewardShopService.get_reward s R.id = some R) :
    ((∃ r, (RewardShopService.redeem_reward s now C.id R.id q).1 = .ok r) ↔
        R.cost * q ≤ C.points)
    ∧ (R.cost * q ≤ C.points →
        (RewardShopService.redeem_reward s now C.id R.id q).1 =
          .ok (some { C with points := C.points - R.cost * q }, R, R.cost * q)
        ∧ RewardShopService.get_customer
            (RewardShopService.redeem_reward s now C.id R.id q).2 C.id
            = some { C with points := C.points - R.cost * q }
        ∧ (RewardShopService.redeem_reward s now C.id R.id q).2.orders =
            s.orders ++ [{ id := s.next_order_id, customer_id := C.id, reward_id := R.id,
                           quantity := q, points_spent := R.cost * q, order_time := now,
                           status := "pending" }]) := by
  have hq' : ¬ q < 1 := by omega
  constructor
  · constructor
    · rintro ⟨r, hr⟩
      obtain ⟨C', R', -, hC', hR', hpts, -⟩ := redeem_reward_ok_inv s now C.id R.id q r hr
      rw [hC] at hC'
      rw [hR] at hR'
      obtain rfl : C = C' := by injection hC'
      obtain rfl : R = R' := by injection hR'
      omega
    · intro hle
      have hpts : ¬ C.points < R.cost * q := by omega
      rw [redeem_reward_success s now C.id R.id q C R hq' hC hR hpts]
      exact ⟨_, rfl⟩
  · intro hle
    have hpts : ¬ C.points < R.cost * q := by omega
    rw [redeem_reward_success s now C.id R.id q C R hq' hC hR hpts]
    have hcust :
        RewardShopService.get_customer
          (data_layer.update_customer_points s C.id (C.points - R.cost * q)) C.id
          = some { C with points := C.points - R.cost * q } :=
      get_customer_update_points s C.id _ C hC
    refine ⟨?_, ?_, ?_⟩
    · show Except.ok (_, R, R.cost * q) = _
      rw [show RewardShopService.get_customer
            (data_layer.insert_order
              (data_layer.update_customer_points s C.id (C.points - R.cost * q))
              C.id R.id q (R.cost * q) now "pending") C.id
          = some { C with points := C.points - R.cost * q } from hcust]
    · exact hcust
    · rfl

/-- C2: successful redemption never drives a balance negative: if every
customer's balance is non-negative before a redeem that returns `ok`, every
customer's balance is non-negative afterwards. -/
theorem redeem_preserves_nonneg (s : ShopState) (now : String) (cid rid q : Int)
    (r : Option Customer × Reward × Int)
    (hpos : ∀ c ∈ s.customers, 0 ≤ c.points)
    (hok : (RewardShopService.redeem_reward s now cid rid q).1 = .ok r) :
    ∀ c ∈ (RewardShopService.redeem_reward s now cid rid q).2.customers, 0 ≤ c.points := by
  obtain ⟨C, R, -, hC, -, hpts, hstate⟩ := redeem_reward_ok_inv s now cid rid q r hok
  rw [hstate]
  intro c hc
  have hc' : c ∈ (data_layer.update_customer_points s cid (C.points - R.cost * q)).customers := hc
  simp only [data_layer.update_customer_points, List.mem_map] at hc'
  obtain ⟨c0, hc0, rfl⟩ := hc'
  by_cases h0 : (c0.id == cid)
  · simp only [h0, if_true]
    have : R.cost * q ≤ C.points := by omega
    omega
  · simp only [h0, if_false]
    exact hpos c0 hc0

/-- C6: whenever `redeem_reward` fails — `InvalidInput` for `quantity < 1`,
`NotFound` for a missing customer or reward, `InsufficientFunds` for
`customer.points < reward.cost * quantity` — the whole database is
unchanged: no points deducted, no order created. -/
theorem redeem_failure_no_change (s : ShopState) (now : String) (cid rid q : Int) :
    (q < 1 → RewardShopService.redeem_reward s now cid rid q =
        (.error (.invalidInput "Quantity must be at least 1."), s))
    ∧ (¬ q < 1 → RewardShopService.get_customer s cid = none →
        RewardShopService.redeem_reward s now cid rid q =
          (.error (.notFound "Customer not found."), s))
    ∧ (∀ C, ¬ q < 1 → RewardShopService.get_customer s cid = some C →
        RewardShopService.get_reward s rid = none →
        RewardShopService.redeem_reward s now cid rid q =
          (.error (.notFound "Reward not found."), s))
    ∧ (∀ C R, ¬ q < 1 → RewardShopService.get_customer s cid = some C →
        RewardShopService.get_reward s rid = some R → C.points < R.cost * q →
        RewardShopService.redeem_reward s now cid rid q =
          (.error (.insufficientFunds
            (C.name ++ " does not have enough points. Has " ++
              toString C.points ++ ", needs " ++ toString (R.cost * q) ++ ".")), s))
    ∧ (∀ e, (RewardShopService.redeem_reward s now cid rid q).1 = .error e →
        (RewardShopService.redeem_reward s now cid rid q).2 = s) := by
  refine ⟨?_, ?_, ?_, ?_, redeem_reward_error_state s now cid rid q⟩
  · intro hq
    simp [RewardShopService.redeem_reward, hq]
  · intro hq hC
    simp [RewardShopService.redeem_reward, hq, hC]
  · intro C hq hC hR
    simp [RewardShopService.redeem_reward, hq, hC, hR]
  · intro C R hq hC hR hpts
    simp [RewardShopService.redeem_reward, hq, hC, hR, hpts]

/-- C8: `issue_points` rejects `points ≤ 0` with `InvalidInput` and changes
nothing; on a missing customer it fails with `NotFound`; otherwise it adds
exactly `points` to the balance and returns the updated customer. -/
theorem issue_points_correct (s : ShopState) (cid p : Int) :
    (p ≤ 0 → RewardShopService.issue_points s cid p =
        (.error (.invalidInput "Points to add must be greater than 0."), s))
    ∧ (0 < p → RewardShopService.get_customer s cid = none →
        RewardShopService.issue_points s cid p =
          (.error (.notFound "Customer not found."), s))
    ∧ (∀ C, 0 < p → RewardShopService.get_customer s cid = some C →
        (RewardShopService.issue_points s cid p).1 =
          .ok (some { C with points := C.points + p })
        ∧ RewardShopService.get_customer (RewardShopService.issue_points s cid p).2 cid
            = some { C with points := C.points + p }
        ∧ (RewardShopService.issue_points s cid p).2.orders = s.orders
        ∧ (RewardShopService.issue_points s cid p).2.rewards = s.rewards) := by
  refine ⟨?_, ?_, ?_⟩
  · intro hp
    simp [RewardShopService.issue_points, hp]
  · intro hp hC
    have hp' : ¬ p ≤ 0 := by omega
    simp [RewardShopService.issue_points, hp', hC]
  · intro C hp hC
    have hp' : ¬ p ≤ 0 := by omega
    rw [issue_points_success s cid p C hp' hC]
    have hcust := get_customer_update_points s cid (C.points + p) C hC
    exact ⟨by rw [show RewardShopService.get_customer
        (data_layer.update_customer_points s cid (C.points + p)) cid
        = some { C with points := C.points + p } from hcust], hcust, rfl, rfl⟩

/-- C4: cancelling a pending order whose customer exists refunds exactly
`points_spent` and flips the status to `"cancelled"`; cancelling a
non-pending order fails with `InvalidState` and leaves the database
untouched. -/
theorem cancel_order_correct (s : ShopState) (oid : Int) :
    (∀ O C, data_layer.get_order_by_id s oid = some O → O.status = "pending" →
        RewardShopService.get_customer s O.customer_id = some C →
        (RewardShopService.cancel_order s oid).1 =
          .ok (some { C with points := C.points + O.points_spent })
        ∧ RewardShopService.get_customer
            (RewardShopService.cancel_order s oid).2 O.customer_id
            = some { C with points := C.points + O.points_spent }
        ∧ data_layer.get_order_by_id (RewardShopService.cancel_order s oid).2 oid
            = some { O with status := "cancelled" })
    ∧ (∀ O, data_layer.get_order_by_id s oid = some O → O.status ≠ "pending" →
        RewardShopService.cancel_order s oid =
          (.error (.invalidState
            ("Order is not pending (current status: " ++ O.status ++ ").")), s)) := by
  constructor
  · intro O C hO hst hC
    rw [cancel_order_success s oid O C hO hst hC]
    have hcust := get_customer_update_points s O.customer_id (C.points + O.points_spent) C hC
    have hord : data_layer.get_order_by_id
        (data_layer.update_customer_points s O.customer_id (C.points + O.points_spent)) oid
        = some O := hO
    have hord' := get_order_update_status
      (data_layer.update_customer_points s O.customer_id (C.points + O.points_spent))
      oid "cancelled" O hord
    refine ⟨?_, hcust, hord'⟩
    rw [show RewardShopService.get_customer
        (data_layer.update_order_status
          (data_layer.update_customer_points s O.customer_id (C.points + O.points_spent))
          oid "cancelled") O.customer_id
        = some { C with points := C.points + O.points_spent } from hcust]
  · intro O hO hst
    simp [RewardShopService.cancel_order, hO, hst]

/-- C5: fulfilling a pending order flips exactly that order's status to
`"fulfilled"` and changes nothing else — customers, rewards and the counters
are untouched, and every order keeps all fields except that matching-id
status flip; fulfilling a non-pending order fails and the database is
unchanged. -/
theorem fulfill_order_correct (s : ShopState) (oid : Int) :
    (∀ O, data_layer.get_order_by_id s oid = some O → O.status = "pending" →
        (RewardShopService.fulfill_order s oid).1 = .ok ()
        ∧ (RewardShopService.fulfill_order s oid).2.customers = s.customers
        ∧ (RewardShopService.fulfill_order s oid).2.rewards = s.rewards
        ∧ (RewardShopService.fulfill_order s oid).2.next_customer_id = s.next_customer_id
        ∧ (RewardShopService.fulfill_order s oid).2.next_reward_id = s.next_reward_id
        ∧ (RewardShopService.fulfill_order s oid).2.next_order_id = s.next_order_id
        ∧ data_layer.get_order_by_id (RewardShopService.fulfill_order s oid).2 oid
            = some { O with status := "fulfilled" }
        ∧ List.Forall₂ (fun o o' : Order =>
            o'.id = o.id ∧ o'.customer_id = o.customer_id ∧ o'.reward_id = o.reward_id
            ∧ o'.quantity = o.quantity ∧ o'.points_spent = o.points_spent
            ∧ o'.order_time = o.order_time
            ∧ (if o.id = oid then o'.status = "fulfilled" else o' = o))
            s.orders (RewardShopService.fulfill_order s oid).2.orders)
    ∧ (∀ O, data_layer.get_order_by_id s oid = some O → O.status ≠ "pending" →
        RewardShopService.fulfill_order s oid =
          (.error (.invalidState
            ("Order is not pending (current status: " ++ O.status ++ ").")), s)) := by
  constructor
  · intro O hO hst
    rw [fulfill_order_success s oid O hO hst]
    refine ⟨rfl, rfl, rfl, rfl, rfl, rfl, get_order_update_status s oid "fulfilled" O hO, ?_⟩
    show List.Forall₂ _ s.orders
      (s.orders.map fun o => if o.id == oid then { o with status := "fulfilled" } else o)
    rw [List.forall₂_map_right_iff]
    rw [List.forall₂_same]
    intro o _
    by_cases ho : o.id = oid
    · simp [ho]
    · simp [ho]
  · intro O hO hst
    simp [RewardShopService.fulfill_order, hO, hst]

/-- C7 (amended): `cancel_order` fails `NotFound` when the order is missing,
`InvalidState` when the order exists but is not pending — the status check
runs before the customer lookup, so this is the error even when the
customer is also missing — and `NotFound` when the order is pending but its
customer is missing; every failure leaves the database unchanged. -/
theorem cancel_order_failure_modes (s : ShopState) (oid : Int) :
    (data_layer.get_order_by_id s oid = none →
        RewardShopService.cancel_order s oid =
          (.error (.notFound "Order not found."), s))
    ∧ (∀ O, data_layer.get_order_by_id s oid = some O → O.status ≠ "pending" →
        RewardShopService.cancel_order s oid =
          (.error (.invalidState
            ("Order is not pending (current status: " ++ O.status ++ ").")), s))
    ∧ (∀ O, data_layer.get_order_by_id s oid = some O → O.status = "pending" →
        RewardShopService.get_customer s O.customer_id = none →
        RewardShopService.cancel_order s oid =
          (.error (.notFound "Customer not found for this order."), s)) := by
  refine ⟨?_, ?_, ?_⟩
  · intro hO
    simp [RewardShopService.cancel_order, hO]
  · intro O hO hst
    simp [RewardShopService.cancel_order, hO, hst]
  · intro O hO hst hC
    simp [RewardShopService.cancel_order, hO, hst, hC]

/-- C3: redeeming (balance `B ≥ R.cost * q`) and then cancelling the order
the redemption created restores the balance to exactly `B` and leaves that
order `"cancelled"` — the spec's worked example (100 points, cost 20,
quantity 3) is the witness below. -/
theorem redeem_then_cancel_roundtrip (s : ShopState) (now : String)
    (C : Customer) (R : Reward) (q : Int)
    (hq : 1 ≤ q)
    (hC : RewardShopService.get_customer s C.id = some C)
    (hR : RewardShopService.get_reward s R.id = some R)
    (hB : R.cost * q ≤ C.points)
    (hfresh : ∀ o ∈ s.orders, o.id ≠ s.next_order_id) :
    (RewardShopService.cancel_order
        (RewardShopService.redeem_reward s now C.id R.id q).2 s.next_order_id).1
      = .ok (some C)
    ∧ RewardShopService.get_customer
        (RewardShopService.cancel_order
          (RewardShopService.redeem_reward s now C.id R.id q).2 s.next_order_id).2 C.id
      = some C
    ∧ data_layer.get_order_by_id
        (RewardShopService.cancel_order
          (RewardShopService.redeem_reward s now C.id R.id q).2 s.next_order_id).2
        s.next_order_id
      = some { id := s.next_order_id, customer_id := C.id, reward_id := R.id,
               quantity := q, points_spent := R.cost * q, order_time := now,
               status := "cancelled" } := by
  have hq' : ¬ q < 1 := by omega
  have hpts : ¬ C.points < R.cost * q := by omega
  have e2 : (RewardShopService.redeem_reward s now C.id R.id q).2 =
      data_layer.insert_order (data_layer.update_customer_points s C.id (C.points - R.cost * q))
        C.id R.id q (R.cost * q) now "pending" := by
    rw [redeem_reward_success s now C.id R.id q C R hq' hC hR hpts]
  have hO2 : data_layer.get_order_by_id
      (data_layer.insert_order (data_layer.update_customer_points s C.id (C.points - R.cost * q))
        C.id R.id q (R.cost * q) now "pending") s.next_order_id
      = some { id := s.next_order_id, customer_id := C.id, reward_id := R.id,
               quantity := q, points_spent := R.cost * q, order_time := now,
               status := "pending" } := by
    show (s.orders ++
        [({ id := s.next_order_id, customer_id := C.id, reward_id := R.id,
            quantity := q, points_spent := R.cost * q, order_time := now,
            status := "pending" } : Order)]).find? (fun o : Order => o.id == s.next_order_id) = _
    rw [List.find?_append]
    have hnone : s.orders.find? (fun o => o.id == s.next_order_id) = none := by
      rw [List.find?_eq_none]
      intro o ho
      simpa using hfresh o ho
    rw [hnone]
    simp
  have hC2 : RewardShopService.get_customer
      (data_layer.insert_order (data_layer.update_customer_points s C.id (C.points - R.cost * q))
        C.id R.id q (R.cost * q) now "pending") C.id
      = some { C with points := C.points - R.cost * q } :=
    get_customer_update_points s C.id _ C hC
  have hcansucc := cancel_order_success
    (data_layer.insert_order (data_layer.update_customer_points s C.id (C.points - R.cost * q))
      C.id R.id q (R.cost * q) now "pending")
    s.next_order_id
    { id := s.next_order_id, customer_id := C.id, reward_id := R.id,
      quantity := q, points_spent := R.cost * q, order_time := now, status := "pending" }
    { C with points := C.points - R.cost * q }
    hO2 rfl hC2
  have harith : C.points - R.cost * q + R.cost * q = C.points := by ring
  have hkey : RewardShopService.get_customer
      (data_layer.update_order_status
        (data_layer.update_customer_points
          (data_layer.insert_order
            (data_layer.update_customer_points s C.id (C.points - R.cost * q))
            C.id R.id q (R.cost * q) now "pending")
          C.id (C.points - R.cost * q + R.cost * q))
        s.next_order_id "cancelled") C.id
      = some C := by
    show RewardShopService.get_customer
        (data_layer.update_customer_points
          (data_layer.insert_order
            (data_layer.update_customer_points s C.id (C.points - R.cost * q))
            C.id R.id q (R.cost * q) now "pending")
          C.id (C.points - R.cost * q + R.cost * q)) C.id
      = some C
    rw [get_customer_update_points _ C.id (C.points - R.cost * q + R.cost * q) _ hC2]
    rw [harith]
  have hordfinal : data_layer.get_order_by_id
      (data_layer.update_order_status
        (data_layer.update_customer_points
          (data_layer.insert_order
            (data_layer.update_customer_points s C.id (C.points - R.cost * q))
            C.id R.id q (R.cost * q) now "pending")
          C.id (C.points - R.cost * q + R.cost * q))
        s.next_order_id "cancelled") s.next_order_id
      = some { id := s.next_order_id, customer_id := C.id, reward_id := R.id,
               quantity := q, points_spent := R.cost * q, order_time := now,
               status := "cancelled" } := by
    have hO3 : data_layer.get_order_by_id
        (data_layer.update_customer_points
          (data_layer.insert_order
            (data_layer.update_customer_points s C.id (C.points - R.cost * q))
            C.id R.id q (R.cost * q) now "pending")
          C.id (C.points - R.cost * q + R.cost * q)) s.next_order_id
        = some { id := s.next_order_id, customer_id := C.id, reward_id := R.id,
                 quantity := q, points_spent := R.cost * q, order_time := now,
                 status := "pending" } := hO2
    exact get_order_update_status _ s.next_order_id "cancelled" _ hO3
  refine ⟨?_, ?_, ?_⟩
  · rw [e2, hcansucc]
    exact congrArg Except.ok hkey
  · rw [e2, hcansucc]
    exact hkey
  · rw [e2, hcansucc]
    exact hordfinal

/-- C10 counterexample: deleting customer 1, who exists and is referenced by
order 1, raises a foreign-key `IntegrityError` instead of completing — and
likewise for reward 1 — so `deleteCustomer` / `deleteReward` can fail. -/
theorem delete_referenced_row_fails :
    (RewardShopService.delete_customer fkState 1).1 =
      .error (.integrityError "FOREIGN KEY constraint failed")
    ∧ (RewardShopService.delete_reward fkState 1).1 =
      .error (.integrityError "FOREIGN KEY constraint failed") :=
  ⟨rfl, rfl⟩

/-- C10 (amended): `deleteCustomer` / `deleteReward` raise no `NotFound`: on
an id with no matching row they complete without error and leave the
database unchanged, and the only possible failure is the foreign-key
`IntegrityError` raised when existing orders still reference the row. -/
theorem delete_ops_never_notFound (s : ShopState) (cid rid : Int) :
    ((∀ c ∈ s.customers, c.id ≠ cid) →
        RewardShopService.delete_customer s cid = (.ok (), s))
    ∧ ((∀ r ∈ s.rewards, r.id ≠ rid) →
        RewardShopService.delete_reward s rid = (.ok (), s))
    ∧ (∀ e, (RewardShopService.delete_customer s cid).1 = .error e →
        ∃ m, e = .integrityError m)
    ∧ (∀ e, (RewardShopService.delete_reward s rid).1 = .error e →
        ∃ m, e = .integrityError m) := by
  refine ⟨?_, ?_, ?_, ?_⟩
  · intro hno
    have hany : s.customers.any (fun c => c.id == cid) = false := by
      rw [List.any_eq_false]
      intro c hc
      simpa using hno c hc
    have hfilter : s.customers.filter (fun c => c.id != cid) = s.customers := by
      rw [List.filter_eq_self]
      intro c hc
      simpa using hno c hc
    show data_layer.delete_customer s cid = (.ok (), s)
    unfold data_layer.delete_customer
    rw [hany]
    simp only [Bool.false_and, if_false]
    rw [hfilter]
    rfl
  · intro hno
    have hany : s.rewards.any (fun r => r.id == rid) = false := by
      rw [List.any_eq_false]
      intro r hr
      simpa using hno r hr
    have hfilter : s.rewards.filter (fun r => r.id != rid) = s.rewards := by
      rw [List.filter_eq_self]
      intro r hr
      simpa using hno r hr
    show data_layer.delete_reward s rid = (.ok (), s)
    unfold data_layer.delete_reward
    rw [hany]
    simp only [Bool.false_and, if_false]
    rw [hfilter]
    rfl
  · intro e he
    by_cases hcond : (s.customers.any (fun c => c.id == cid) &&
        s.orders.any (fun o => o.customer_id == cid)) = true
    · refine ⟨"FOREIGN KEY constraint failed", ?_⟩
      have hres : (RewardShopService.delete_customer s cid).1 =
          .error (.integrityError "FOREIGN KEY constraint failed") := by
        show (data_layer.delete_customer s cid).1 = _
        unfold data_layer.delete_customer
        rw [if_pos hcond]
      rw [hres] at he
      injection he with h
      exact h.symm
    · exfalso
      have hres : (RewardShopService.delete_customer s cid).1 = .ok () := by
        show (data_layer.delete_customer s cid).1 = _
        unfold data_layer.delete_customer
        rw [if_neg hcond]
      rw [hres] at he
      cases he
  · intro e he
    by_cases hcond : (s.rewards.any (fun r => r.id == rid) &&
        s.orders.any (fun o => o.reward_id == rid)) = true
    · refine ⟨"FOREIGN KEY constraint failed", ?_⟩
      have hres : (RewardShopService.delete_reward s rid).1 =
          .error (.integrityError "FOREIGN KEY constraint failed") := by
        show (data_layer.delete_reward s rid).1 = _
        unfold data_layer.delete_reward
        rw [if_pos hcond]
      rw [hres] at he
      injection he with h
      exact h.symm
    · exfalso
      have hres : (RewardShopService.delete_reward s rid).1 = .ok () := by
        show (data_layer.delete_reward s rid).1 = _
        unfold data_layer.delete_reward
        rw [if_neg hcond]
      rw [hres] at he
      cases he

/-- C7 counterexample: in `staleOrderState` order 1 is `"fulfilled"` and its
customer (id 99) is missing, yet `cancel_order` reports the `InvalidState`
status error — not the `NotFound` the claim's check order predicts. -/
theorem cancel_order_status_error_cex :
    RewardShopService.get_customer staleOrderState 99 = none
    ∧ (RewardShopService.cancel_order staleOrderState 1).1 =
        .error (.invalidState "Order is not pending (current status: fulfilled).")
    ∧ (RewardShopService.cancel_order staleOrderState 1).1 ≠
        .error (.notFound "Customer not found for this order.")
    ∧ (RewardShopService.cancel_order staleOrderState 1).1 ≠
        .error (.notFound "Order not found.") := by
  refine ⟨rfl, rfl, ?_, ?_⟩ <;>
  · intro h
    rw [show (RewardShopService.cancel_order staleOrderState 1).1 =
        .error (.invalidState "Order is not pending (current status: fulfilled).") from rfl] at h
    simp at h

/-! ### The order state machine (C9) -/

/-- Any single service operation either leaves the `orders` table alone,
appends one fresh `"pending"` order, or flips the status of one existing
pending order to `"fulfilled"` or `"cancelled"`; the AUTOINCREMENT counter
moves only on an append. -/
lemma applyOp_orders_cases (s : ShopState) (op : Op) :
    ((applyOp s op).orders = s.orders ∧ (applyOp s op).next_order_id = s.next_order_id)
    ∨ (∃ o_new : Order, o_new.status = "pending" ∧ o_new.id = s.next_order_id
        ∧ (applyOp s op).orders = s.orders ++ [o_new]
        ∧ (applyOp s op).next_order_id = s.next_order_id + 1)
    ∨ (∃ oid : Int, ∃ st : String, (st = "fulfilled" ∨ st = "cancelled")
        ∧ (∃ w ∈ s.orders, w.id = oid ∧ w.status = "pending")
        ∧ (applyOp s op).orders =
            s.orders.map (fun o => if o.id == oid then { o with status := st } else o)
        ∧ (applyOp s op).next_order_id = s.next_order_id) := by
  cases op with
  | redeemOp now cid rid q =>
    by_cases hq : q < 1
    · exact Or.inl (by simp [applyOp, RewardShopService.redeem_reward, hq])
    · rcases hC : RewardShopService.get_customer s cid with _ | C
      · exact Or.inl (by simp [applyOp, RewardShopService.redeem_reward, hq, hC])
      · rcases hR : RewardShopService.get_reward s rid with _ | R
        · exact Or.inl (by simp [applyOp, RewardShopService.redeem_reward, hq, hC, hR])
        · by_cases hpts : C.points < R.cost * q
          · exact Or.inl (by simp [applyOp, RewardShopService.redeem_reward, hq, hC, hR, hpts])
          · have e2 : (RewardShopService.redeem_reward s now cid rid q).2 =
                data_layer.insert_order
                  (data_layer.update_customer_points s cid (C.points - R.cost * q))
                  cid rid q (R.cost * q) now "pending" := by
              rw [redeem_reward_success s now cid rid q C R hq hC hR hpts]
            refine Or.inr (Or.inl
              ⟨Order.mk s.next_order_id cid rid q (R.cost * q) now "pending", rfl, rfl, ?_, ?_⟩)
            · show ((RewardShopService.redeem_reward s now cid rid q).2).orders = _
              rw [e2]
              rfl
            · show ((RewardShopService.redeem_reward s now cid rid q).2).next_order_id = _
              rw [e2]
              rfl
  | issueOp cid p =>
    left
    by_cases hp : p ≤ 0
    · simp [applyOp, RewardShopService.issue_points, hp]
    · rcases hC : RewardShopService.get_customer s cid with _ | C
      · simp [applyOp, RewardShopService.issue_points, hp, hC]
      · simp [applyOp, RewardShopService.issue_points, hp, hC,
          data_layer.update_customer_points]
  | fulfillOp oid =>
    rcases hO : data_layer.get_order_by_id s oid with _ | O
    · exact Or.inl (by simp [applyOp, RewardShopService.fulfill_order, hO])
    · by_cases hst : O.status = "pending"
      · refine Or.inr (Or.inr ⟨oid, "fulfilled", Or.inl rfl,
          ⟨O, List.mem_of_find?_eq_some hO, ?_, hst⟩, ?_, ?_⟩)
        · have hbeq := List.find?_some
            (show s.orders.find? (fun o => o.id == oid) = some O from hO)
          simpa using hbeq
        · show ((RewardShopService.fulfill_order s oid).2).orders = _
          rw [fulfill_order_success s oid O hO hst]
          rfl
        · show ((RewardShopService.fulfill_order s oid).2).next_order_id = _
          rw [fulfill_order_success s oid O hO hst]
          rfl
      · exact Or.inl (by simp [applyOp, RewardShopService.fulfill_order, hO, hst])
  | cancelOp oid =>
    rcases hO : data_layer.get_order_by_id s oid with _ | O
    · exact Or.inl (by simp [applyOp, RewardShopService.cancel_order, hO])
    · by_cases hst : O.status = "pending"
      · rcases hC : RewardShopService.get_customer s O.customer_id with _ | C
        · exact Or.inl (by simp [applyOp, RewardShopService.cancel_order, hO, hst, hC])
        · refine Or.inr (Or.inr ⟨oid, "cancelled", Or.inr rfl,
            ⟨O, List.mem_of_find?_eq_some hO, ?_, hst⟩, ?_, ?_⟩)
          · have hbeq := List.find?_some
              (show s.orders.find? (fun o => o.id == oid) = some O from hO)
            simpa using hbeq
          · show ((RewardShopService.cancel_order s oid).2).orders = _
            rw [cancel_order_success s oid O C hO hst hC]
            rfl
          · show ((RewardShopService.cancel_order s oid).2).next_order_id = _
            rw [cancel_order_success s oid O C hO hst hC]
            rfl
      · exact Or.inl (by simp [applyOp, RewardShopService.cancel_order, hO, hst])
  | addCustomerOp n e p =>
    left
    constructor <;>
    · simp only [applyOp, RewardShopService.add_customer, data_layer.insert_customer]
      repeat' split
      all_goals rfl
  | deleteCustomerOp cid =>
    left
    constructor <;>
    · simp only [applyOp, RewardShopService.delete_customer, data_layer.delete_customer]
      split <;> rfl
  | addRewardOp n c =>
    left
    constructor <;>
    · simp only [applyOp, RewardShopService.add_reward, data_layer.insert_reward]
      repeat' split
      all_goals rfl
  | deleteRewardOp rid =>
    left
    constructor <;>
    · simp only [applyOp, RewardShopService.delete_reward, data_layer.delete_reward]
      split <;> rfl

/-- One service call preserves the order-id bookkeeping invariant. -/
lemma orderIdsOK_step (s s' : ShopState) (h : OrderIdsOK s) (hst : Step s s') :
    OrderIdsOK s' := by
  obtain ⟨op, rfl⟩ := hst
  rcases applyOp_orders_cases s op with ⟨ho, hn⟩ | ⟨o_new, -, hid, ho, hn⟩ |
    ⟨oid, st, -, -, ho, hn⟩
  · exact ⟨ho ▸ h.1, fun o hm => by rw [hn]; exact h.2 o (ho ▸ hm)⟩
  · constructor
    · rw [ho, List.pairwise_append]
      refine ⟨h.1, List.pairwise_singleton _ _, ?_⟩
      intro a ha b hb
      rw [List.mem_singleton] at hb
      subst hb
      have hlt := h.2 a ha
      omega
    · intro o hm
      rw [ho] at hm
      rw [hn]
      rcases List.mem_append.mp hm with h1 | h1
      · have := h.2 o h1
        omega
      · rw [List.mem_singleton] at h1
        subst h1
        omega
  · constructor
    · rw [ho, List.pairwise_map]
      refine h.1.imp ?_
      intro a b hab
      by_cases ha : (a.id == oid) <;> by_cases hb2 : (b.id == oid) <;> simp [ha, hb2, hab]
    · intro o hm
      rw [hn]
      rw [ho] at hm
      obtain ⟨o0, hm0, rfl⟩ := List.mem_map.mp hm
      have hlt := h.2 o0 hm0
      by_cases h0 : (o0.id == oid)
      · simpa [h0] using hlt
      · simpa [h0] using hlt

/-- Every reachable database satisfies the order-id invariant. -/
lemma reachable_orderIdsOK (s : ShopState) (h : Reachable s) : OrderIdsOK s := by
  induction h with
  | refl => exact ⟨List.Pairwise.nil, by intro o hm; cases hm⟩
  | tail hab hbc ih => exact orderIdsOK_step _ _ ih hbc

/-- In a duplicate-free orders table, rows are determined by their id. -/
lemma eq_of_same_id {l : List Order} (hp : l.Pairwise (fun a b => a.id ≠ b.id))
    {a b : Order} (ha : a ∈ l) (hb : b ∈ l) (hid : a.id = b.id) : a = b := by
  induction l with
  | nil => cases ha
  | cons x xs ih =>
    rcases List.mem_cons.mp ha with rfl | ha'
    · rcases List.mem_cons.mp hb with rfl | hb'
      · rfl
      · exact absurd hid ((List.pairwise_cons.mp hp).1 b hb')
    · rcases List.mem_cons.mp hb with rfl | hb'
      · exact absurd hid.symm ((List.pairwise_cons.mp hp).1 a ha')
      · exact ih (List.pairwise_cons.mp hp).2 ha' hb'

/-- Along any run, an existing order keeps its id and all non-status fields,
and its status either stays put or moves from `"pending"` to `"fulfilled"`
or `"cancelled"`. -/
lemma orders_persist (s t : ShopState) (hs : Reachable s)
    (h : Relation.ReflTransGen Step s t) :
    ∀ o ∈ s.orders, ∃ o' ∈ t.orders, o'.id = o.id
      ∧ o'.customer_id = o.customer_id ∧ o'.reward_id = o.reward_id
      ∧ o'.quantity = o.quantity ∧ o'.points_spent = o.points_spent
      ∧ o'.order_time = o.order_time
      ∧ (o'.status = o.status ∨
          (o.status = "pending" ∧ (o'.status = "fulfilled" ∨ o'.status = "cancelled"))) := by
  induction h with
  | refl =>
    intro o hm
    exact ⟨o, hm, rfl, rfl, rfl, rfl, rfl, rfl, Or.inl rfl⟩
  | tail hab hbc ih =>
    rename_i b c
    intro o hm
    obtain ⟨o', hm', hid, hcu, hre, hqn, hps, hti, hstat⟩ := ih o hm
    have hinvb : OrderIdsOK b := reachable_orderIdsOK b (hs.trans hab)
    obtain ⟨op, rfl⟩ := hbc
    rcases applyOp_orders_cases b op with ⟨ho, -⟩ | ⟨o_new, -, -, ho, -⟩ |
      ⟨oid, st, hstv, ⟨w, hw, hwid, hwst⟩, ho, -⟩
    · rw [ho]
      exact ⟨o', hm', hid, hcu, hre, hqn, hps, hti, hstat⟩
    · rw [ho]
      exact ⟨o', List.mem_append_left _ hm', hid, hcu, hre, hqn, hps, hti, hstat⟩
    · rw [ho]
      refine ⟨if o'.id == oid then { o' with status := st } else o',
        List.mem_map_of_mem _ hm', ?_⟩
      by_cases h0 : o'.id = oid
      · have ho'w : o' = w := eq_of_same_id hinvb.1 hm' hw (by rw [h0, hwid])
        have hops : o'.status = "pending" := by rw [ho'w]; exact hwst
        have hopend : o.status = "pending" := by
          rcases hstat with he | ⟨hp2, -⟩
          · rw [← he, hops]
          · exact hp2
        simp only [h0, beq_self_eq_true, if_true]
        refine ⟨h0 ▸ hid, hcu, hre, hqn, hps, hti, Or.inr ⟨hopend, ?_⟩⟩
        rcases hstv with rfl | rfl
        · exact Or.inl rfl
        · exact Or.inr rfl
      · simp only [beq_iff_eq, h0, if_false]
        exact ⟨hid, hcu, hre, hqn, hps, hti, hstat⟩

/-- C9: every order enters the system with status `"pending"`, and an
order's status changes at most once across any sequence of service calls —
from `"pending"` to `"fulfilled"` or `"cancelled"` — after which no
operation changes that order's status or any other of its fields. -/
theorem order_status_lifecycle :
    (∀ s, Reachable s → ∀ s', Step s s' → ∀ o' ∈ s'.orders,
        (∀ o ∈ s.orders, o.id ≠ o'.id) → o'.status = "pending")
    ∧ (∀ s, Reachable s → ∀ s', Relation.ReflTransGen Step s s' →
        ∀ o ∈ s.orders, ∀ o' ∈ s'.orders, o'.id = o.id →
          o'.customer_id = o.customer_id ∧ o'.reward_id = o.reward_id
          ∧ o'.quantity = o.quantity ∧ o'.points_spent = o.points_spent
          ∧ o'.order_time = o.order_time
          ∧ (o'.status = o.status ∨
              (o.status = "pending" ∧ (o'.status = "fulfilled" ∨ o'.status = "cancelled")))) := by
  constructor
  · intro s _ s' hstep o' hm' hfresh
    obtain ⟨op, rfl⟩ := hstep
    rcases applyOp_orders_cases s op with ⟨ho, -⟩ | ⟨o_new, hpend, -, ho, -⟩ |
      ⟨oid, st, -, -, ho, -⟩
    · rw [ho] at hm'
      exact absurd rfl (hfresh o' hm')
    · rw [ho] at hm'
      rcases List.mem_append.mp hm' with h1 | h1
      · exact absurd rfl (hfresh o' h1)
      · rw [List.mem_singleton] at h1
        rw [h1]
        exact hpend
    · rw [ho] at hm'
      obtain ⟨o0, hm0, rfl⟩ := List.mem_map.mp hm'
      refine absurd ?_ (hfresh o0 hm0)
      by_cases h0 : (o0.id == oid) <;> simp [h0]
  · intro s hs s' hrtg o hm o' hm' hid
    obtain ⟨w, hw, hwid, hcu, hre, hqn, hps, hti, hstat⟩ := orders_persist s s' hs hrtg o hm
    have hinv : OrderIdsOK s' := reachable_orderIdsOK s' (hs.trans hrtg)
    have ho'w : o' = w := eq_of_same_id hinv.1 hm' hw (by rw [hid, hwid])
    subst ho'w
    exact ⟨hcu, hre, hqn, hps, hti, hstat⟩

/-! ### Concrete witnesses -/

/-- Witness for C1: on the seeded database, Alice (100 points) redeems three
Booster Packs (cost 20): balance 40, one pending order with `points_spent = 60`. -/
theorem redeem_reward_correct_witness :
    (RewardShopService.redeem_reward initState "2024-01-01T00:00:00" 1 1 3).1 =
      .ok (some { id := 1, name := "Alice", email := "alice@example.com", points := 40 },
           { id := 1, name := "Booster Pack", cost := 20 }, 60)
    ∧ (RewardShopService.redeem_reward initState "2024-01-01T00:00:00" 1 1 3).2.orders =
        initState.orders ++
          [{ id := 1, customer_id := 1, reward_id := 1, quantity := 3,
             points_spent := 60, order_time := "2024-01-01T00:00:00",
             status := "pending" }] := by
  have h := (redeem_reward_correct initState "2024-01-01T00:00:00"
      { id := 1, name := "Alice", email := "alice@example.com", points := 100 }
      { id := 1, name := "Booster Pack", cost := 20 } 3
      (by decide) (by decide) (by decide)).2 (by decide)
  exact ⟨h.1, h.2.2⟩

/-- Witness for C2: after Alice redeems one Booster Pack, her row reads 80
points, and the theorem instance confirms non-negativity. -/
theorem redeem_preserves_nonneg_witness :
    (⟨1, "Alice", "alice@example.com", 80⟩ : Customer) ∈
      (RewardShopService.redeem_reward initState "2024-01-01T00:00:00" 1 1 1).2.customers
    ∧ (0:Int) ≤ (⟨1, "Alice", "alice@example.com", 80⟩ : Customer).points :=
  ⟨by decide,
   redeem_preserves_nonneg initState "2024-01-01T00:00:00" 1 1 1
     (some { id := 1, name := "Alice", email := "alice@example.com", points := 80 },
      { id := 1, name := "Booster Pack", cost := 20 }, 20)
     (by decide) rfl
     ⟨1, "Alice", "alice@example.com", 80⟩ (by decide)⟩

/-- Witness for C3: the spec's worked example — 100 points, cost 20,
quantity 3; after redeem-then-cancel the balance is 100 again and order 1 is
`"cancelled"`. -/
theorem redeem_then_cancel_roundtrip_witness :
    (RewardShopService.cancel_order
        (RewardShopService.redeem_reward initState "2024-01-01T00:00:00" 1 1 3).2 1).1
      = .ok (some { id := 1, name := "Alice", email := "alice@example.com", points := 100 })
    ∧ RewardShopService.get_customer
        (RewardShopService.cancel_order
          (RewardShopService.redeem_reward initState "2024-01-01T00:00:00" 1 1 3).2 1).2 1
      = some { id := 1, name := "Alice", email := "alice@example.com", points := 100 }
    ∧ data_layer.get_order_by_id
        (RewardShopService.cancel_order
          (RewardShopService.redeem_reward initState "2024-01-01T00:00:00" 1 1 3).2 1).2 1
      = some { id := 1, customer_id := 1, reward_id := 1, quantity := 3, points_spent := 60,
               order_time := "2024-01-01T00:00:00", status := "cancelled" } :=
  redeem_then_cancel_roundtrip initState "2024-01-01T00:00:00"
    { id := 1, name := "Alice", email := "alice@example.com", points := 100 }
    { id := 1, name := "Booster Pack", cost := 20 } 3
    (by decide) (by decide) (by decide) (by decide) (by decide)

/-- Witness for C4: cancelling Dana's pending order 1 in `fkState` refunds
its 5 points and leaves the order `"cancelled"`. -/
theorem cancel_order_correct_witness :
    (RewardShopService.cancel_order fkState 1).1 =
      .ok (some { id := 1, name := "Dana", email := "dana@example.com", points := 5 })
    ∧ data_layer.get_order_by_id (RewardShopService.cancel_order fkState 1).2 1
      = some { id := 1, customer_id := 1, reward_id := 1, quantity := 1, points_spent := 5,
               order_time := "2024-01-01T00:00:00", status := "cancelled" } := by
  have h := (cancel_order_correct fkState 1).1
    { id := 1, customer_id := 1, reward_id := 1, quantity := 1, points_spent := 5,
      order_time := "2024-01-01T00:00:00", status := "pending" }
    { id := 1, name := "Dana", email := "dana@example.com", points := 0 }
    rfl rfl rfl
  exact ⟨h.1, h.2.2⟩

/-- Witness for C5: fulfilling Dana's pending order 1 in `fkState` flips its
status and leaves the customers table alone. -/
theorem fulfill_order_correct_witness :
    (RewardShopService.fulfill_order fkState 1).1 = .ok ()
    ∧ (RewardShopService.fulfill_order fkState 1).2.customers = fkState.customers
    ∧ data_layer.get_order_by_id (RewardShopService.fulfill_order fkState 1).2 1
      = some { id := 1, customer_id := 1, reward_id := 1, quantity := 1, points_spent := 5,
               order_time := "2024-01-01T00:00:00", status := "fulfilled" } := by
  have h := (fulfill_order_correct fkState 1).1
    { id := 1, customer_id := 1, reward_id := 1, quantity := 1, points_spent := 5,
      order_time := "2024-01-01T00:00:00", status := "pending" }
    rfl rfl
  exact ⟨h.1, h.2.1, h.2.2.2.2.2.2.1⟩

/-- Witness for C6: redeeming with quantity 0 raises `InvalidInput` and
returns the seeded database unchanged. -/
theorem redeem_failure_no_change_witness :
    RewardShopService.redeem_reward initState "2024-01-01T00:00:00" 1 1 0 =
      (.error (.invalidInput "Quantity must be at least 1."), initState) :=
  (redeem_failure_no_change initState "2024-01-01T00:00:00" 1 1 0).1 (by decide)

/-- Witness for C7 (amended): cancelling the fulfilled order of a deleted
customer reports the `InvalidState` status error. -/
theorem cancel_order_failure_modes_witness :
    RewardShopService.cancel_order staleOrderState 1 =
      (.error (.invalidState "Order is not pending (current status: fulfilled)."),
       staleOrderState) :=
  (cancel_order_failure_modes staleOrderState 1).2.1
    { id := 1, customer_id := 99, reward_id := 1, quantity := 1, points_spent := 10,
      order_time := "2024-01-01T00:00:00", status := "fulfilled" }
    rfl (by decide)

/-- Witness for C8: issuing 50 points to Alice yields balance 150, returned
and persisted. -/
theorem issue_points_correct_witness :
    (RewardShopService.issue_points initState 1 50).1 =
      .ok (some { id := 1, name := "Alice", email := "alice@example.com", points := 150 })
    ∧ RewardShopService.get_customer (RewardShopService.issue_points initState 1 50).2 1
      = some { id := 1, name := "Alice", email := "alice@example.com", points := 150 } := by
  have h := (issue_points_correct initState 1 50).2.2
    { id := 1, name := "Alice", email := "alice@example.com", points := 100 }
    (by decide) rfl
  exact ⟨h.1, h.2.1⟩

/-- Witness for C9: the order created by Alice's redemption on the seeded
database has status `"pending"`. -/
theorem order_status_lifecycle_witness :
    (Order.mk 1 1 1 1 20 "2024-01-01T00:00:00" "pending").status = "pending" :=
  order_status_lifecycle.1 initState Relation.ReflTransGen.refl
    (applyOp initState (Op.redeemOp "2024-01-01T00:00:00" 1 1 1))
    ⟨Op.redeemOp "2024-01-01T00:00:00" 1 1 1, rfl⟩
    (Order.mk 1 1 1 1 20 "2024-01-01T00:00:00" "pending")
    (by decide) (by decide)

/-- Witness for C10 (amended): deleting the non-existent customer 999 and
reward 999 completes without error and leaves the seeded database as is. -/
theorem delete_ops_never_notFound_witness :
    RewardShopService.delete_customer initState 999 = (.ok (), initState)
    ∧ RewardShopService.delete_reward initState 999 = (.ok (), initState) :=
  ⟨(delete_ops_never_notFound initState 999 999).1 (by decide),
   (delete_ops_never_notFound initState 999 999).2.1 (by decide)⟩

end RewardsShop
